import Mathlib

/-!
Verification of the Chaos Monkey middleware (`chaos_middleware.py`).

The middleware intercepts tool and model calls of an agent framework and
randomly raises exceptions.  We embed the configuration record, the
constructor `ChaosMiddleware.__init__`, and the two interception entry
points `wrap_tool_call` and `wrap_model_call` as pure Lean functions.

External collaborators are made explicit parameters:
* the process environment is a function `String → Option String`
  (`os.environ.get key ""` becomes `(env key).getD ""`);
* the uniform draw of `random.random()` is a rational `draw` (a value in
  `[0,1)` on real runs; the hypotheses `0 ≤ draw`, `draw < 1` state this
  where a claim needs it);
* the index drawn by `random.choice` is a natural number `pick`
  (reduced modulo the list length, so every list element is reachable);
* a downstream handler is a value `handler : Except ε α` — forwarding
  returns exactly the handler's result or propagates exactly its error,
  which the embedding renders as `handler.mapError Sum.inr`.

A raised chaos exception is `ChaosExc.typed name` (a freshly constructed
no-argument instance of the exception class called `name`) or
`ChaosExc.generic msg` (the bare `Exception(msg)` fallback).
-/

deriving instance DecidableEq for Except

namespace Chaos

/-- Python's `str.lower()` on the ASCII values the safety gate
compares: each character mapped through `Char.toLower`. -/
def pyLower (s : String) : String :=
  String.mk (s.data.map Char.toLower)

/-- The `ChaosConfig` TypedDict: every key may be absent, since
`__init__` reads each one with `config.get(key, default)`. -/
structure ChaosConfig where
  failure_rate : Option ℚ := none
  exception_types : Option (List String) := none
  include_tools : Option (Option (List String)) := none
  exclude_tools : Option (List String) := none
  seed : Option (Option Nat) := none
  safety_key : Option String := none
deriving Repr, DecidableEq

/-- The state of a constructed `ChaosMiddleware` instance: the six
fields `__init__` stores on `self`. -/
structure ChaosMiddleware where
  failure_rate : ℚ
  exception_types : List String
  include_tools : Option (List String)
  exclude_tools : List String
  seed : Option Nat
  safety_key : String
deriving Repr, DecidableEq

/-- `ChaosMiddleware.__init__`: each field is `config.get(key, default)`
with defaults `0.1`, `[]`, `None`, `[]`, `None`, `"ENABLE_CHAOS"`. -/
def ChaosMiddleware.ofConfig (cfg : ChaosConfig) : ChaosMiddleware where
  failure_rate := cfg.failure_rate.getD (1/10)
  exception_types := cfg.exception_types.getD []
  include_tools := cfg.include_tools.getD none
  exclude_tools := cfg.exclude_tools.getD []
  seed := cfg.seed.getD none
  safety_key := cfg.safety_key.getD "ENABLE_CHAOS"

/-- `ChaosMiddleware.__init__` as a fallible computation: the Python
constructor body contains no `raise` and no validation, so the
embedding is `.ok` of the stored fields for every configuration. -/
def ChaosMiddleware.init (cfg : ChaosConfig) : Except String ChaosMiddleware :=
  Except.ok (ChaosMiddleware.ofConfig cfg)

/-- An exception raised by the middleware: a no-argument instance of a
configured exception class (identified by its name), or the generic
`Exception(msg)` fallback. -/
inductive ChaosExc where
  | typed (name : String)
  | generic (msg : String)
deriving Repr, DecidableEq

/-- Python truthiness of the resolved tool name: `None` and the empty
string are falsy, every other string is truthy. -/
def truthy : Option String → Bool
  | none => false
  | some s => s != ""

/-- `random.choice(l)`: the element at the drawn index.  The abstract
index `pick` is reduced modulo the length, so for a non-empty list the
result is always a member and every member is reachable. -/
def chooseFrom (l : List String) (pick : Nat) : String :=
  l.getD (pick % l.length) ""

/-- `ChaosMiddleware.wrap_tool_call`, line by line:
1. safety gate: `os.environ.get(safety_key, "").lower() != "true"` →
   forward;
2. deny list: `tool_name and tool_name in self.exclude_tools` → forward;
3. allow list: `include_tools is not None and (not tool_name or
   tool_name not in include_tools)` → forward;
4. `random.random() <= failure_rate` → raise a chosen exception type if
   any are configured, else `Exception("Chaos Monkey triggered!")`;
5. otherwise forward.
`toolName` is the resolved tool name (`None` when the request has no
tool object). -/
def wrap_tool_call {ε α : Type} (m : ChaosMiddleware) (env : String → Option String)
    (toolName : Option String) (draw : ℚ) (pick : Nat)
    (handler : Except ε α) : Except (ChaosExc ⊕ ε) α :=
  if pyLower ((env m.safety_key).getD "") != "true" then
    handler.mapError Sum.inr
  else if truthy toolName && m.exclude_tools.contains (toolName.getD "") then
    handler.mapError Sum.inr
  else if m.include_tools.isSome &&
      (!truthy toolName || !(m.include_tools.getD []).contains (toolName.getD "")) then
    handler.mapError Sum.inr
  else if draw ≤ m.failure_rate then
    if m.exception_types ≠ [] then
      Except.error (Sum.inl (ChaosExc.typed (chooseFrom m.exception_types pick)))
    else
      Except.error (Sum.inl (ChaosExc.generic "Chaos Monkey triggered!"))
  else
    handler.mapError Sum.inr

/-- `ChaosMiddleware.wrap_model_call`: the same safety gate and dice
roll, with no tool-name extraction and no allow/deny filter; the
generic fallback message is "Chaos Monkey triggered on model call!". -/
def wrap_model_call {ε α : Type} (m : ChaosMiddleware) (env : String → Option String)
    (draw : ℚ) (pick : Nat)
    (handler : Except ε α) : Except (ChaosExc ⊕ ε) α :=
  if pyLower ((env m.safety_key).getD "") != "true" then
    handler.mapError Sum.inr
  else if draw ≤ m.failure_rate then
    if m.exception_types ≠ [] then
      Except.error (Sum.inl (ChaosExc.typed (chooseFrom m.exception_types pick)))
    else
      Except.error (Sum.inl (ChaosExc.generic "Chaos Monkey triggered on model call!"))
  else
    handler.mapError Sum.inr

/-- A call intercepted by the middleware: a tool call carrying its
resolved target name, or a model call. -/
inductive CallKind where
  | tool (name : Option String)
  | model
deriving Repr, DecidableEq

/-- The observable decision on one call. -/
inductive Outcome where
  | forward
  | inject (e : ChaosExc)
deriving Repr, DecidableEq

/-- An abstract deterministic pseudo-random generator over states `σ`:
`nextQ` is `random.random()`, `choiceIdx g n` is the index drawn by
`random.choice` from a list of length `n`, and `seedTo` is
`random.seed(s)`.  Python's Mersenne-Twister generator is one instance;
the determinism claims hold for every instance. -/
structure Rng (σ : Type) where
  nextQ : σ → ℚ × σ
  choiceIdx : σ → Nat → Nat × σ
  seedTo : Nat → σ

/-- `random.seed(self.seed)` at construction: a supplied seed resets
the generator state deterministically; with no seed the ambient state
is left as is. -/
def initGen {σ : Type} (R : Rng σ) (ambient : σ) (seed : Option Nat) : σ :=
  match seed with
  | some s => R.seedTo s
  | none => ambient

/-- One intercepted call with the generator threaded through, consuming
draws exactly where the Python code draws: no draw when the gate or the
eligibility filter forwards, one `random.random()` for the dice roll,
and one `random.choice` draw only when a typed exception is raised. -/
def stepCall {σ : Type} (R : Rng σ) (m : ChaosMiddleware) (env : String → Option String) :
    CallKind → σ → Outcome × σ
  | CallKind.tool name, g =>
    if pyLower ((env m.safety_key).getD "") != "true" then
      (Outcome.forward, g)
    else if truthy name && m.exclude_tools.contains (name.getD "") then
      (Outcome.forward, g)
    else if m.include_tools.isSome &&
        (!truthy name || !(m.include_tools.getD []).contains (name.getD "")) then
      (Outcome.forward, g)
    else
      let d := R.nextQ g
      if d.1 ≤ m.failure_rate then
        if m.exception_types ≠ [] then
          let c := R.choiceIdx d.2 m.exception_types.length
          (Outcome.inject (ChaosExc.typed
            (m.exception_types.getD (c.1 % m.exception_types.length) "")), c.2)
        else
          (Outcome.inject (ChaosExc.generic "Chaos Monkey triggered!"), d.2)
      else
        (Outcome.forward, d.2)
  | CallKind.model, g =>
    if pyLower ((env m.safety_key).getD "") != "true" then
      (Outcome.forward, g)
    else
      let d := R.nextQ g
      if d.1 ≤ m.failure_rate then
        if m.exception_types ≠ [] then
          let c := R.choiceIdx d.2 m.exception_types.length
          (Outcome.inject (ChaosExc.typed
            (m.exception_types.getD (c.1 % m.exception_types.length) "")), c.2)
        else
          (Outcome.inject (ChaosExc.generic "Chaos Monkey triggered on model call!"), d.2)
      else
        (Outcome.forward, d.2)

/-- A sequence of intercepted calls driven through one middleware
instance, threading the generator state. -/
def runCalls {σ : Type} (R : Rng σ) (m : ChaosMiddleware) (env : String → Option String) :
    List CallKind → σ → List Outcome × σ
  | [], g => ([], g)
  | c :: cs, g =>
    let o := stepCall R m env c g
    let os := runCalls R m env cs o.2
    (o.1 :: os.1, os.2)

/-- An environment in which the default safety key is enabled. -/
def envOn : String → Option String :=
  fun k => if k = "ENABLE_CHAOS" then some "true" else none

/-- An environment with no variables set. -/
def envOff : String → Option String :=
  fun _ => none

/-- `NETWORK_ERRORS` profile from the source, by class name. -/
def NETWORK_ERRORS : List String := ["TimeoutError", "ConnectionError"]

/-- `LLM_ERRORS` profile from the source, by class name. -/
def LLM_ERRORS : List String := ["RateLimitError", "ServiceUnavailableError"]

/-- `CRITICAL_ERRORS` profile from the source, by class name. -/
def CRITICAL_ERRORS : List String := ["ValueError", "KeyError"]

/-- A middleware with failure rate 1, no exception list, and the empty
string on the deny list. -/
def mDeny : ChaosMiddleware :=
  { failure_rate := 1, exception_types := [], include_tools := none,
    exclude_tools := [""], seed := none, safety_key := "ENABLE_CHAOS" }

/-- A middleware with failure rate 1 and no filters. -/
def mPlain : ChaosMiddleware :=
  { failure_rate := 1, exception_types := [], include_tools := none,
    exclude_tools := [], seed := none, safety_key := "ENABLE_CHAOS" }

/-- A middleware with failure rate 1 and the LLM error profile. -/
def mTyped : ChaosMiddleware :=
  { failure_rate := 1, exception_types := LLM_ERRORS, include_tools := none,
    exclude_tools := [], seed := none, safety_key := "ENABLE_CHAOS" }

/-- A middleware with failure rate 1 and an allow list of one tool. -/
def mAllow : ChaosMiddleware :=
  { failure_rate := 1, exception_types := [], include_tools := some ["risky_tool"],
    exclude_tools := [], seed := none, safety_key := "ENABLE_CHAOS" }

/-- A middleware with failure rate 1 and one tool on both the allow
list and the deny list. -/
def mDenyAllow : ChaosMiddleware :=
  { failure_rate := 1, exception_types := [], include_tools := some ["risky_tool"],
    exclude_tools := ["risky_tool"], seed := none, safety_key := "ENABLE_CHAOS" }

/-- C1: when the environment variable named by `safety_key` is unset or
its value is not case-insensitively "true" (so the lowered lookup with
default "" differs from "true"), both `wrap_tool_call` and
`wrap_model_call` forward unconditionally: the result is exactly the
handler's outcome (result returned, error propagated, no injection),
for every configuration, target, draw and pick.  The gate is a
per-call parameter `env`, read afresh at each invocation. -/
theorem gate_off_forwards {ε α : Type} (m : ChaosMiddleware) (env : String → Option String)
    (toolName : Option String) (draw : ℚ) (pick : Nat) (handler : Except ε α)
    (hgate : pyLower ((env m.safety_key).getD "") ≠ "true") :
    wrap_tool_call m env toolName draw pick handler = handler.mapError Sum.inr ∧
    wrap_model_call m env draw pick handler = handler.mapError Sum.inr := by
  constructor <;> simp [wrap_tool_call, wrap_model_call, hgate]

/-- Witness for C1 at a concrete input: empty environment, failure
rate 1, a named tool, and a concrete handler result. -/
theorem gate_off_forwards_w :
    pyLower ((envOff mPlain.safety_key).getD "") ≠ "true" ∧
    wrap_tool_call mPlain envOff (some "search") 0 0 (Except.ok 3 : Except Unit Nat)
      = (Except.ok 3 : Except Unit Nat).mapError Sum.inr :=
  ⟨by decide,
    (gate_off_forwards mPlain envOff (some "search") 0 0 (Except.ok 3) (by decide)).1⟩

/-- C2: with the gate enabled, failure rate 1, a draw in `[0,1)`, and a
target neither caught by the deny check nor filtered by the allow
check, both paths raise an injected exception; the result is an
injection error independent of the handler, so the handler is never
consulted. -/
theorem rate_one_always_raises {ε α : Type} (m : ChaosMiddleware)
    (env : String → Option String) (toolName : Option String) (draw : ℚ) (pick : Nat)
    (hgate : pyLower ((env m.safety_key).getD "") = "true")
    (hrate : m.failure_rate = 1)
    (h1 : draw < 1)
    (hden : ¬(truthy toolName = true ∧ toolName.getD "" ∈ m.exclude_tools))
    (hall : ¬(m.include_tools.isSome = true ∧
      (truthy toolName = false ∨ toolName.getD "" ∉ m.include_tools.getD []))) :
    (∃ e : ChaosExc, ∀ handler : Except ε α,
      wrap_tool_call m env toolName draw pick handler = Except.error (Sum.inl e)) ∧
    (∃ e : ChaosExc, ∀ handler : Except ε α,
      wrap_model_call m env draw pick handler = Except.error (Sum.inl e)) := by
  have hfire : draw ≤ m.failure_rate := by rw [hrate]; exact le_of_lt h1
  by_cases hne : m.exception_types = []
  · exact ⟨⟨ChaosExc.generic "Chaos Monkey triggered!", fun handler => by
      simp [wrap_tool_call, hgate, hden, hall, hfire, hne]⟩,
    ⟨ChaosExc.generic "Chaos Monkey triggered on model call!", fun handler => by
      simp [wrap_model_call, hgate, hfire, hne]⟩⟩
  · exact ⟨⟨ChaosExc.typed (chooseFrom m.exception_types pick), fun handler => by
      simp [wrap_tool_call, hgate, hden, hall, hfire, hne]⟩,
    ⟨ChaosExc.typed (chooseFrom m.exception_types pick), fun handler => by
      simp [wrap_model_call, hgate, hfire, hne]⟩⟩

/-- Witness for C2 at a concrete input: gate on, rate 1, no filters,
named tool, draw 0. -/
theorem rate_one_always_raises_w :
    pyLower ((envOn mPlain.safety_key).getD "") = "true" ∧
    (∃ e : ChaosExc, ∀ handler : Except Unit Nat,
      wrap_tool_call mPlain envOn (some "search") 0 0 handler = Except.error (Sum.inl e)) ∧
    (∃ e : ChaosExc, ∀ handler : Except Unit Nat,
      wrap_model_call mPlain envOn 0 0 handler = Except.error (Sum.inl e)) :=
  ⟨by decide,
    rate_one_always_raises mPlain envOn (some "search") 0 0 (by decide) (by decide)
      (by decide) (by decide) (by decide)⟩

/-- Counterexample to C3 as stated: the resolved target name may be the
empty string, which is falsy in Python, so the deny check
`tool_name and tool_name in self.exclude_tools` is skipped even though
"" is a member of `exclude_tools`; with the gate on, rate 1 and no
allow list the call injects instead of forwarding. -/
theorem deny_list_empty_name_cex :
    "" ∈ mDeny.exclude_tools ∧
    wrap_tool_call mDeny envOn (some "") 0 0 (Except.ok 7 : Except Unit Nat)
      = Except.error (Sum.inl (ChaosExc.generic "Chaos Monkey triggered!")) ∧
    wrap_tool_call mDeny envOn (some "") 0 0 (Except.ok 7 : Except Unit Nat)
      ≠ (Except.ok 7 : Except Unit Nat).mapError Sum.inr := by
  refine ⟨by decide, by decide, by decide⟩

/-- C3 amended: for every tool call whose resolved target name is
non-empty and present in the deny list, `wrap_tool_call` forwards
unconditionally — also when the name is on the allow list and for any
failure rate; deny is checked before allow and overrides it. -/
theorem deny_list_overrides_allow {ε α : Type} (m : ChaosMiddleware)
    (env : String → Option String) (name : String) (draw : ℚ) (pick : Nat)
    (hname : name ≠ "")
    (hmem : name ∈ m.exclude_tools) :
    ∀ handler : Except ε α,
      wrap_tool_call m env (some name) draw pick handler = handler.mapError Sum.inr := by
  intro handler
  by_cases hgate : pyLower ((env m.safety_key).getD "") = "true"
  · have ht : truthy (some name) = true := by simp [truthy, hname]
    simp [wrap_tool_call, hgate, ht, hmem]
  · simp [wrap_tool_call, hgate]

/-- Witness for the amended C3 at a concrete input: a tool on both
lists, rate 1, gate on, still forwards. -/
theorem deny_list_overrides_allow_w :
    "risky_tool" ≠ "" ∧ "risky_tool" ∈ mDenyAllow.exclude_tools ∧
    wrap_tool_call mDenyAllow envOn (some "risky_tool") 0 0 (Except.ok 5 : Except Unit Nat)
      = (Except.ok 5 : Except Unit Nat).mapError Sum.inr :=
  ⟨by decide, by decide,
    deny_list_overrides_allow mDenyAllow envOn "risky_tool" 0 0 (by decide) (by decide)
      (Except.ok 5)⟩

/-- A middleware with failure rate 0 and no filters. -/
def mZero : ChaosMiddleware :=
  { failure_rate := 0, exception_types := [], include_tools := none,
    exclude_tools := [], seed := none, safety_key := "ENABLE_CHAOS" }

/-- C4: for an eligible call with the safety gate passed, injection
fires exactly when the draw is less than or equal to `failure_rate`
(on both paths); when the draw is strictly greater the call forwards
with the handler's outcome unchanged; and at `failure_rate = 0` a draw
of exactly 0 still fires. -/
theorem injection_iff_draw_le {ε α : Type} [Inhabited α] (m : ChaosMiddleware)
    (env : String → Option String) (toolName : Option String) (draw : ℚ) (pick : Nat)
    (hgate : pyLower ((env m.safety_key).getD "") = "true")
    (hden : ¬(truthy toolName = true ∧ toolName.getD "" ∈ m.exclude_tools))
    (hall : ¬(m.include_tools.isSome = true ∧
      (truthy toolName = false ∨ toolName.getD "" ∉ m.include_tools.getD []))) :
    ((∃ e : ChaosExc,
        wrap_tool_call m env toolName draw pick (Except.ok (default : α) : Except ε α)
          = Except.error (Sum.inl e)) ↔ draw ≤ m.failure_rate) ∧
    ((∃ e : ChaosExc,
        wrap_model_call m env draw pick (Except.ok (default : α) : Except ε α)
          = Except.error (Sum.inl e)) ↔ draw ≤ m.failure_rate) ∧
    (¬draw ≤ m.failure_rate → ∀ handler : Except ε α,
      wrap_tool_call m env toolName draw pick handler = handler.mapError Sum.inr ∧
      wrap_model_call m env draw pick handler = handler.mapError Sum.inr) ∧
    (m.failure_rate = 0 → draw = 0 →
      ∃ e : ChaosExc,
        wrap_tool_call m env toolName draw pick (Except.ok (default : α) : Except ε α)
          = Except.error (Sum.inl e)) := by
  have htool : (∃ e : ChaosExc,
      wrap_tool_call m env toolName draw pick (Except.ok (default : α) : Except ε α)
        = Except.error (Sum.inl e)) ↔ draw ≤ m.failure_rate := by
    constructor
    · intro he
      by_contra hnd
      rcases he with ⟨e, he⟩
      simp [wrap_tool_call, hgate, hden, hall, hnd, Except.mapError] at he
    · intro hle
      by_cases hne : m.exception_types = []
      · exact ⟨ChaosExc.generic "Chaos Monkey triggered!",
          by simp [wrap_tool_call, hgate, hden, hall, hle, hne]⟩
      · exact ⟨ChaosExc.typed (chooseFrom m.exception_types pick),
          by simp [wrap_tool_call, hgate, hden, hall, hle, hne]⟩
  have hmodel : (∃ e : ChaosExc,
      wrap_model_call m env draw pick (Except.ok (default : α) : Except ε α)
        = Except.error (Sum.inl e)) ↔ draw ≤ m.failure_rate := by
    constructor
    · intro he
      by_contra hnd
      rcases he with ⟨e, he⟩
      simp [wrap_model_call, hgate, hnd, Except.mapError] at he
    · intro hle
      by_cases hne : m.exception_types = []
      · exact ⟨ChaosExc.generic "Chaos Monkey triggered on model call!",
          by simp [wrap_model_call, hgate, hle, hne]⟩
      · exact ⟨ChaosExc.typed (chooseFrom m.exception_types pick),
          by simp [wrap_model_call, hgate, hle, hne]⟩
  refine ⟨htool, hmodel, ?_, ?_⟩
  · intro hnd handler
    exact ⟨by simp [wrap_tool_call, hgate, hden, hall, hnd],
      by simp [wrap_model_call, hgate, hnd]⟩
  · intro hr hd
    exact htool.mpr (by rw [hr, hd])

/-- Witness for C4 at a concrete boundary input: failure rate 0 and
draw exactly 0, where injection fires. -/
theorem injection_iff_draw_le_w :
    (∃ e : ChaosExc,
      wrap_tool_call mZero envOn (some "search") 0 0
        (Except.ok (default : Nat) : Except Unit Nat) = Except.error (Sum.inl e)) ↔
    (0 : ℚ) ≤ mZero.failure_rate :=
  (injection_iff_draw_le mZero envOn (some "search") 0 0 (by decide) (by decide)
    (by decide)).1

/-- C5: whenever injection fires on an eligible gated call: with a
non-empty `exception_types` the raised exception is the drawn element
of that list — a member, with every member reachable for some draw —
on both paths; with an empty list it is the generic exception with
message "Chaos Monkey triggered!" on the tool path and "Chaos Monkey
triggered on model call!" on the model path. -/
theorem exception_selection {ε α : Type} (m : ChaosMiddleware)
    (env : String → Option String) (toolName : Option String) (draw : ℚ) (pick : Nat)
    (hgate : pyLower ((env m.safety_key).getD "") = "true")
    (hden : ¬(truthy toolName = true ∧ toolName.getD "" ∈ m.exclude_tools))
    (hall : ¬(m.include_tools.isSome = true ∧
      (truthy toolName = false ∨ toolName.getD "" ∉ m.include_tools.getD [])))
    (hfire : draw ≤ m.failure_rate) :
    (m.exception_types ≠ [] →
      chooseFrom m.exception_types pick ∈ m.exception_types ∧
      (∀ handler : Except ε α, wrap_tool_call m env toolName draw pick handler
        = Except.error (Sum.inl (ChaosExc.typed (chooseFrom m.exception_types pick)))) ∧
      (∀ handler : Except ε α, wrap_model_call m env draw pick handler
        = Except.error (Sum.inl (ChaosExc.typed (chooseFrom m.exception_types pick)))) ∧
      (∀ t ∈ m.exception_types, ∃ p : Nat, chooseFrom m.exception_types p = t)) ∧
    (m.exception_types = [] →
      (∀ handler : Except ε α, wrap_tool_call m env toolName draw pick handler
        = Except.error (Sum.inl (ChaosExc.generic "Chaos Monkey triggered!"))) ∧
      (∀ handler : Except ε α, wrap_model_call m env draw pick handler
        = Except.error (Sum.inl (ChaosExc.generic "Chaos Monkey triggered on model call!")))) := by
  constructor
  · intro hne
    have hlen : 0 < m.exception_types.length := List.length_pos.mpr hne
    refine ⟨?_, fun handler => by simp [wrap_tool_call, hgate, hden, hall, hfire, hne],
      fun handler => by simp [wrap_model_call, hgate, hfire, hne], ?_⟩
    · have hlt : pick % m.exception_types.length < m.exception_types.length :=
        Nat.mod_lt _ hlen
      rw [chooseFrom, List.getD_eq_getElem _ _ hlt]
      exact List.getElem_mem hlt
    · intro t ht
      obtain ⟨⟨i, hi⟩, hget⟩ := List.mem_iff_get.mp ht
      refine ⟨i, ?_⟩
      rw [chooseFrom, Nat.mod_eq_of_lt hi, List.getD_eq_getElem _ _ hi]
      exact (List.get_eq_getElem _ ⟨i, hi⟩) ▸ hget
  · intro hne
    exact ⟨fun handler => by simp [wrap_tool_call, hgate, hden, hall, hfire, hne],
      fun handler => by simp [wrap_model_call, hgate, hfire, hne]⟩

/-- Witness for C5 at a concrete input: the LLM error profile, rate 1,
draw 0, pick 1 selects the second configured exception type. -/
theorem exception_selection_w :
    mTyped.exception_types ≠ [] ∧
    chooseFrom mTyped.exception_types 1 ∈ mTyped.exception_types ∧
    wrap_tool_call mTyped envOn (some "search") 0 1 (Except.ok 3 : Except Unit Nat)
      = Except.error (Sum.inl (ChaosExc.typed (chooseFrom mTyped.exception_types 1))) :=
  ⟨by decide,
    ((@exception_selection Unit Nat mTyped envOn (some "search") 0 1 (by decide) (by decide)
      (by decide) (by decide)).1 (by decide)).1,
    ((@exception_selection Unit Nat mTyped envOn (some "search") 0 1 (by decide) (by decide)
      (by decide) (by decide)).1 (by decide)).2.1 (Except.ok 3)⟩

/-- C6: `wrap_model_call` reads neither `include_tools` nor
`exclude_tools` (and takes no target name at all): its result is
unchanged under any replacement of the two lists, for every
configuration, environment, draw, pick and handler. -/
theorem model_call_ignores_lists {ε α : Type} (m : ChaosMiddleware)
    (inc : Option (List String)) (exc : List String) (env : String → Option String)
    (draw : ℚ) (pick : Nat) (handler : Except ε α) :
    wrap_model_call { m with include_tools := inc, exclude_tools := exc } env draw pick handler
      = wrap_model_call m env draw pick handler := rfl

/-- The allow-list filter: with `include_tools` configured and the
resolved target name not a member (or the name absent or empty), the
tool call forwards with the handler's outcome unchanged. -/
theorem tool_forwards_of_not_included {ε α : Type} (m : ChaosMiddleware)
    (env : String → Option String) (toolName : Option String) (draw : ℚ) (pick : Nat)
    (handler : Except ε α) (l : List String)
    (hinc : m.include_tools = some l)
    (hnm : ∀ s : String, toolName = some s → s ∉ l) :
    wrap_tool_call m env toolName draw pick handler = handler.mapError Sum.inr := by
  by_cases hgate : pyLower ((env m.safety_key).getD "") = "true"
  · by_cases hden : truthy toolName = true ∧ toolName.getD "" ∈ m.exclude_tools
    · simp [wrap_tool_call, hgate, hden]
    · cases toolName with
      | none => simp [wrap_tool_call, hgate, hden, hinc, truthy]
      | some s =>
        by_cases hs : s = ""
        · subst hs
          simp [wrap_tool_call, hgate, hden, hinc, truthy]
        · have hmem : s ∉ l := hnm s rfl
          simp [wrap_tool_call, hgate, hden, hinc, truthy, hs, hmem]
  · simp [wrap_tool_call, hgate]

/-- C7: with an allow list configured, every tool call whose target
name is not a member forwards with the handler's outcome unchanged;
and concretely, with allow list ["risky_tool"], rate 1 and the gate
on, a call targeting "risky_tool" always raises while a call targeting
any other name always forwards. -/
theorem allow_list_restriction {ε α : Type} (m : ChaosMiddleware)
    (env : String → Option String) (toolName : Option String) (draw : ℚ) (pick : Nat)
    (l : List String)
    (hinc : m.include_tools = some l)
    (hnm : ∀ s : String, toolName = some s → s ∉ l) :
    (∀ handler : Except ε α,
      wrap_tool_call m env toolName draw pick handler = handler.mapError Sum.inr) ∧
    (∀ (draw2 : ℚ) (pick2 : Nat) (handler : Except ε α), draw2 < 1 →
      wrap_tool_call mAllow envOn (some "risky_tool") draw2 pick2 handler
        = Except.error (Sum.inl (ChaosExc.generic "Chaos Monkey triggered!")) ∧
      ∀ name : String, name ≠ "risky_tool" →
        wrap_tool_call mAllow envOn (some name) draw2 pick2 handler
          = handler.mapError Sum.inr) := by
  have hg : pyLower ((envOn mAllow.safety_key).getD "") = "true" := by decide
  refine ⟨fun handler => tool_forwards_of_not_included m env toolName draw pick handler l
    hinc hnm, ?_⟩
  intro draw2 pick2 handler h1
  constructor
  · have hle : draw2 ≤ mAllow.failure_rate := le_of_lt h1
    have ht : truthy (some "risky_tool") = true := by decide
    have hmm : "risky_tool" ∈ mAllow.include_tools.getD [] := by decide
    have hx : "risky_tool" ∉ mAllow.exclude_tools := by decide
    have hty : mAllow.exception_types = [] := rfl
    simp [wrap_tool_call, hg, hle, ht, hmm, hx, hty]
  · intro name hname
    refine tool_forwards_of_not_included mAllow envOn (some name) draw2 pick2 handler
      ["risky_tool"] rfl ?_
    intro s hs
    cases hs
    simp [hname]

/-- Witness for C7 at a concrete input: allow list ["risky_tool"],
target "safe_tool" not a member, rate 1, gate on, forwards. -/
theorem allow_list_restriction_w :
    mAllow.include_tools = some ["risky_tool"] ∧
    wrap_tool_call mAllow envOn (some "safe_tool") 0 0 (Except.ok 9 : Except Unit Nat)
      = (Except.ok 9 : Except Unit Nat).mapError Sum.inr :=
  ⟨rfl,
    (allow_list_restriction mAllow envOn (some "safe_tool") 0 0 ["risky_tool"] rfl
      (by decide)).1 (Except.ok 9)⟩

/-- A small linear-congruential instance of `Rng` over `Nat` states,
used to instantiate the determinism theorem at one concrete
deterministic generator. -/
def lcgRng : Rng Nat where
  nextQ g := (((g * 75 + 74) % 65537 : Nat) / (65537 : ℚ), (g * 75 + 74) % 65537)
  choiceIdx g n :=
    (if n = 0 then 0 else ((g * 75 + 74) % 65537) % n, (g * 75 + 74) % 65537)
  seedTo s := s % 65537

/-- A seeded configuration with failure rate 1 and the LLM error
profile. -/
def cfgSeeded : ChaosConfig :=
  { failure_rate := some 1, exception_types := some LLM_ERRORS,
    seed := some (some 42), safety_key := some "ENABLE_CHAOS" }

/-- C8: two middleware instances constructed from the same
configuration carrying a seed, driven over the same call sequence in
the same environment through any deterministic generator, produce
identical outcome sequences — the same forward/inject decisions and
the same exception choices — whatever generator state each run
started from, because `random.seed` resets the generator at
construction. -/
theorem seeded_runs_deterministic {σ : Type} (R : Rng σ) (cfg : ChaosConfig)
    (env : String → Option String) (calls : List CallKind) (amb1 amb2 : σ) (s : Nat)
    (hseed : (ChaosMiddleware.ofConfig cfg).seed = some s) :
    runCalls R (ChaosMiddleware.ofConfig cfg) env calls
        (initGen R amb1 (ChaosMiddleware.ofConfig cfg).seed)
      = runCalls R (ChaosMiddleware.ofConfig cfg) env calls
        (initGen R amb2 (ChaosMiddleware.ofConfig cfg).seed) := by
  rw [hseed]
  rfl

/-- Witness for C8 at a concrete input: the LCG generator, a seeded
configuration, three calls, and two different ambient start states. -/
theorem seeded_runs_deterministic_w :
    runCalls lcgRng (ChaosMiddleware.ofConfig cfgSeeded) envOn
        [CallKind.tool (some "search"), CallKind.model, CallKind.tool none]
        (initGen lcgRng 0 (ChaosMiddleware.ofConfig cfgSeeded).seed)
      = runCalls lcgRng (ChaosMiddleware.ofConfig cfgSeeded) envOn
        [CallKind.tool (some "search"), CallKind.model, CallKind.tool none]
        (initGen lcgRng 999 (ChaosMiddleware.ofConfig cfgSeeded).seed) :=
  seeded_runs_deterministic lcgRng cfgSeeded envOn
    [CallKind.tool (some "search"), CallKind.model, CallKind.tool none] 0 999 42 rfl

/-- C9: construction never fails and validates nothing: `__init__`
returns `.ok` of the stored fields for every configuration, and any
`failure_rate` — including values outside `[0,1]` such as `-1` and
`2` — is stored exactly as supplied. -/
theorem construction_never_fails :
    (∀ cfg : ChaosConfig,
      ChaosMiddleware.init cfg = Except.ok (ChaosMiddleware.ofConfig cfg)) ∧
    (∀ q : ℚ, (ChaosMiddleware.ofConfig { failure_rate := some q }).failure_rate = q) ∧
    (ChaosMiddleware.ofConfig { failure_rate := some (-1) }).failure_rate = -1 ∧
    (ChaosMiddleware.ofConfig { failure_rate := some 2 }).failure_rate = 2 :=
  ⟨fun _ => rfl, fun _ => rfl, rfl, rfl⟩

/-- A middleware with failure rate 1 and an allow list unrelated to
the empty name. -/
def mInc : ChaosMiddleware :=
  { failure_rate := 1, exception_types := [], include_tools := some ["alpha"],
    exclude_tools := [], seed := none, safety_key := "ENABLE_CHAOS" }

/-- C10: a tool call whose resolved target name is the empty string is
treated exactly like an unnamed call, because the code tests the name
for truthiness: `wrap_tool_call` gives the same result on `some ""`
as on `none` for every configuration; with "" explicitly on the deny
list, no allow list, gate on and rate 1, the call still injects; and
whenever an allow list is configured the call with name "" forwards
with the handler's outcome unchanged. -/
theorem empty_name_like_unnamed {ε α : Type} :
    (∀ (m : ChaosMiddleware) (env : String → Option String) (draw : ℚ) (pick : Nat)
        (handler : Except ε α),
      wrap_tool_call m env (some "") draw pick handler
        = wrap_tool_call m env none draw pick handler) ∧
    ("" ∈ mDeny.exclude_tools ∧
      wrap_tool_call mDeny envOn (some "") 0 0 (Except.ok 7 : Except Unit Nat)
        = Except.error (Sum.inl (ChaosExc.generic "Chaos Monkey triggered!"))) ∧
    (∀ (m : ChaosMiddleware) (env : String → Option String) (draw : ℚ) (pick : Nat)
        (handler : Except ε α), m.include_tools.isSome = true →
      wrap_tool_call m env (some "") draw pick handler = handler.mapError Sum.inr) := by
  refine ⟨?_, ⟨by decide, by decide⟩, ?_⟩
  · intro m env draw pick handler
    simp [wrap_tool_call, truthy]
  · intro m env draw pick handler hsome
    by_cases hgate : pyLower ((env m.safety_key).getD "") = "true"
    · simp [wrap_tool_call, hgate, truthy, hsome]
    · simp [wrap_tool_call, hgate]

/-- Witness for C10 at a concrete input: an allow list is configured
and a call with the empty name forwards. -/
theorem empty_name_like_unnamed_w :
    mInc.include_tools.isSome = true ∧
    wrap_tool_call mInc envOn (some "") 0 0 (Except.ok 7 : Except Unit Nat)
      = (Except.ok 7 : Except Unit Nat).mapError Sum.inr :=
  ⟨rfl, (@empty_name_like_unnamed Unit Nat).2.2 mInc envOn 0 0 (Except.ok 7) rfl⟩

end Chaos
